import Mathlib

/-!
Shallow embedding of the value-conversion and statement/aggregate machinery of
the photostructure/node-sqlite native addon (src/src/sqlite_impl.cpp,
src/src/user_function.cpp, src/src/aggregate_function.cpp), together with
theorems settling the frozen claims about it.

Modelling conventions:
* Host (JavaScript) dynamic values are `JSValue`.  A JS number (IEEE-754
  binary64) is carried as the rational it denotes; the one int64→double cast
  the addon performs is modelled explicitly by `castInt64ToDouble`
  (round-to-nearest-even at 53 bits of precision).
* Engine (SQLite) values are `EngineValue`; `integer` carries a 64-bit signed
  value as an `Int`.
* Fallible C++ paths (`throw` / `sqlite3_result_error` /
  `THROW_ERR_INVALID_STATE` …) are modelled with `Except`/`Option` error
  results carrying the source's message strings.
-/

namespace NodeSqlite

/-- Host-side dynamic value (the napi value kinds the addon discriminates on).
A plain JS object is carried as its property list (insertion order); an
`array`, `buffer` and `jsFunction` are kept separate because the addon tests
`IsArray` / `IsBuffer` / `IsFunction` separately from `IsObject`. -/
inductive JSValue where
  | null
  | undefined
  | number (x : ℚ)
  | jsString (s : String)
  | boolean (b : Bool)
  | bigint (v : ℤ)
  | buffer (bytes : List ℕ)
  | array (elems : List JSValue)
  | object (props : List (String × JSValue))
  | jsFunction (id : ℕ)

/-- Engine-side (SQLite) tagged value. -/
inductive EngineValue where
  | null
  | integer (v : ℤ)
  | float (x : ℚ)
  | text (s : String)
  | blob (bytes : List ℕ)
deriving DecidableEq, Repr

/-- `value.IsUndefined()` (the only host-value predicate a theorem needs). -/
def JSValue.isUndefined : JSValue → Bool
  | .undefined => true
  | _ => false

/-- Bit length of a natural number, with explicit fuel (64 bits suffice for
every value the addon casts).  Structural recursion on the fuel keeps the
definition kernel-reducible. -/
def bitLenAux : ℕ → ℕ → ℕ
  | 0, _ => 0
  | fuel + 1, n => if n = 0 then 0 else bitLenAux fuel (n / 2) + 1

def bitLen (n : ℕ) : ℕ := bitLenAux 64 n

/-- Round a natural number to 53 bits of mantissa precision
(round-to-nearest, ties-to-even): the effect of a C++
`static_cast<double>` on a nonnegative 64-bit integer. -/
def roundMantissa (n : ℕ) : ℕ :=
  let bits := bitLen n
  if bits ≤ 53 then n
  else
    let p := 2 ^ (bits - 53)
    let q := n / p
    let r := n % p
    let half := p / 2
    if r < half then q * p
    else if half < r then (q + 1) * p
    else if q % 2 = 0 then q * p else (q + 1) * p

/-- `static_cast<double>(int64_t v)`: exact value of the resulting double. -/
def castInt64ToDouble (v : ℤ) : ℤ :=
  if 0 ≤ v then (roundMantissa v.toNat : ℤ) else -(roundMantissa (-v).toNat : ℤ)

/-- napi `BigInt::Int64Value(&lossless)`: the lossless flag.  True exactly
when the host big integer fits a 64-bit signed integer. -/
def int64Lossless (v : ℤ) : Bool := -(2 ^ 63) ≤ v ∧ v ≤ 2 ^ 63 - 1

/-- napi `BigInt::Int64Value` result: two's-complement truncation to 64 bits.
Also used to model the C++ double→int64 `static_cast` on its one reachable
out-of-range input (see the number branches below): exact on every value in
[−2^63, 2^63 − 1], and −2^63 at +2^63 (the x86-64 `cvttsd2si` result). -/
def toInt64Wrap (v : ℤ) : ℤ := (v + 2 ^ 63) % 2 ^ 64 - 2 ^ 63

/-- `static_cast<int32_t>` on an int64: two's-complement truncation to
32 bits (the in-practice result; implementation-defined in older C++). -/
def toInt32Wrap (v : ℤ) : ℤ := (v + 2 ^ 31) % 2 ^ 32 - 2 ^ 31

/-- Host `ToString()` as used by the stringify-fallback branches.  None of
the theorems inspects its output, so only the object case is rendered; a JS
array actually stringifies by joining its elements with commas, which this
model does not reproduce. -/
def jsToString : JSValue → String
  | .object _ => "[object Object]"
  | .array _ => ""
  | _ => ""

namespace UserDefinedFunction

/-- `UserDefinedFunction::SqliteValueToJS` (src/src/user_function.cpp:112):
converts a scalar-function argument Engine→Host.  The `Except` error is the
`std::runtime_error` thrown for integers outside the JS safe-integer range
when 64-bit-integer mode is off. -/
def SqliteValueToJS (useBigintArgs : Bool) (v : EngineValue) :
    Except String JSValue :=
  match v with
  | .integer intVal =>
    if useBigintArgs then .ok (.bigint intVal)
    else if -2147483648 ≤ intVal ∧ intVal ≤ 2147483647 then
      .ok (.number (intVal : ℚ))
    else if intVal < -(0x1FFFFFFFFFFFFF) ∨ 0x1FFFFFFFFFFFFF < intVal then
      .error ("Value is too large to be represented as a JavaScript number: "
        ++ toString intVal)
    else .ok (.number (castInt64ToDouble intVal : ℚ))
  | .float x => .ok (.number x)
  | .text s => .ok (.jsString s)
  | .blob bytes => .ok (.buffer bytes)
  | .null => .ok .null

/-- `UserDefinedFunction::JSValueToSqliteResult` (src/src/user_function.cpp:158):
converts a scalar-function return value Host→Engine and sets it as the
function result. -/
def JSValueToSqliteResult (value : JSValue) : Except String EngineValue :=
  match value with
  | .null => .ok .null
  | .undefined => .ok .null
  | .boolean b => .ok (.integer (if b then 1 else 0))
  | .bigint v =>
    if int64Lossless v then .ok (.integer v)
    else .ok (.text (toString v))
  | .number x =>
    -- `floor(num_val) == num_val && num_val >= (double)INT64_MIN &&
    --  num_val <= (double)INT64_MAX`; (double)INT64_MAX rounds up to 2^63,
    -- so the check admits the one double (+2^63) on which the subsequent
    -- `static_cast<sqlite3_int64>` is undefined behavior (INT64_MIN on
    -- x86-64) — the cast is modelled as the two's-complement wrap, which is
    -- exact on every in-range value; no theorem relies on the UB point.
    if x.den = 1 ∧ -(2 ^ 63 : ℚ) ≤ x ∧ x ≤ (2 ^ 63 : ℚ) then
      .ok (.integer (toInt64Wrap x.num))
    else .ok (.float x)
  | .jsString s => .ok (.text s)
  | .buffer bytes => .ok (.blob bytes)
  | other => .ok (.text (jsToString other))

end UserDefinedFunction

namespace CustomAggregate

/-- `CustomAggregate::SqliteValueToJS` (src/src/aggregate_function.cpp:262):
converts an aggregate-function argument Engine→Host.  Unlike the scalar
variant it is total: the integer branch casts straight to double with no
safe-integer check. -/
def SqliteValueToJS (useBigintArgs : Bool) (v : EngineValue) : JSValue :=
  match v with
  | .integer intVal =>
    if useBigintArgs then .bigint intVal
    else .number (castInt64ToDouble intVal : ℚ)
  | .float x => .number x
  | .text s => .jsString s
  | .blob bytes => .buffer bytes
  | .null => .null

/-- `CustomAggregate::JSValueToSqliteResult` (src/src/aggregate_function.cpp:298):
converts an aggregate result Host→Engine.  A host big integer that does not
fit int64 is an error here (the scalar variant emits its decimal text
instead). -/
def JSValueToSqliteResult (value : JSValue) : Except String EngineValue :=
  match value with
  | .null => .ok .null
  | .undefined => .ok .null
  | .boolean b => .ok (.integer (if b then 1 else 0))
  | .bigint v =>
    if int64Lossless v then .ok (.integer v)
    else .error "BigInt value too large for SQLite"
  | .number x =>
    -- same bounds and double→int64 cast modelling as the scalar variant:
    -- exact within int64, two's-complement wrap at the admitted UB point
    -- +2^63 (aggregate_function.cpp:317-320)
    if x.den = 1 ∧ -(2 ^ 63 : ℚ) ≤ x ∧ x ≤ (2 ^ 63 : ℚ) then
      .ok (.integer (toInt64Wrap x.num))
    else .ok (.float x)
  | .jsString s => .ok (.text s)
  | .buffer bytes => .ok (.blob bytes)
  | other => .ok (.text (jsToString other))

end CustomAggregate

namespace StatementSync

/-- The per-column Engine→Host switch of `StatementSync::CreateResult`
(src/src/sqlite_impl.cpp:1799 and 1862): row-fetch materialization policy.
Identical in the array-shape and object-shape branches. -/
def columnValueToJS (useBigInts : Bool) (v : EngineValue) : JSValue :=
  match v with
  | .null => .null
  | .integer intVal =>
    if useBigInts then .bigint intVal
    else if 2147483647 < intVal ∨ intVal < -2147483648 then .bigint intVal
    else .number (intVal : ℚ)
  | .float x => .number x
  | .text s => .jsString s
  | .blob bytes => .buffer bytes

/-- The Host→Engine conversion performed by `StatementSync::BindSingleParameter`
(src/src/sqlite_impl.cpp:1703): which engine value a host value is bound as.
The integer branch uses the 32-bit bounds and `sqlite3_bind_int`; arrays and
plain objects fall to the `IsObject` stringify branch. -/
def BindSingleParameter : JSValue → EngineValue
  | .null => .null
  | .undefined => .null
  | .bigint v => if int64Lossless v then .integer v else .text (toString v)
  | .number x =>
    if x.den = 1 ∧ (-2147483648 : ℚ) ≤ x ∧ x ≤ (2147483647 : ℚ) then
      .integer x.num
    else .float x
  | .jsString s => .text s
  | .boolean b => .integer (if b then 1 else 0)
  | .buffer bytes => .blob bytes
  | .jsFunction _ => .null
  | other => .text (jsToString other)

end StatementSync

section DoubleCastLemmas

theorem bitLenAux_le (fuel : ℕ) :
    ∀ n k : ℕ, n < 2 ^ k → k ≤ fuel → bitLenAux fuel n ≤ k := by
  induction fuel with
  | zero => intro n k _ _; simp [bitLenAux]
  | succ f ih =>
    intro n k hn hk
    unfold bitLenAux
    split
    · exact Nat.zero_le k
    · rename_i hne
      have hk1 : 1 ≤ k := by
        by_contra h
        have : k = 0 := by omega
        subst this
        simp at hn
        omega
      have hdiv : n / 2 < 2 ^ (k - 1) := by
        rw [Nat.div_lt_iff_lt_mul (by norm_num : 0 < 2)]
        calc n < 2 ^ k := hn
        _ = 2 ^ (k - 1) * 2 := by
            rw [← pow_succ]
            congr 1
            omega
      have := ih (n / 2) (k - 1) hdiv (by omega)
      omega

theorem roundMantissa_eq_self {n : ℕ} (h : n < 2 ^ 53) : roundMantissa n = n := by
  unfold roundMantissa
  have hb : bitLen n ≤ 53 := bitLenAux_le 64 n 53 h (by norm_num)
  simp [hb]

theorem toInt64Wrap_eq_self {v : ℤ} (h1 : -(2 ^ 63) ≤ v)
    (h2 : v ≤ 2 ^ 63 - 1) : toInt64Wrap v = v := by
  unfold toInt64Wrap
  have e63 : ((2 : ℤ) ^ 63) = 9223372036854775808 := by norm_num
  have e64 : ((2 : ℤ) ^ 64) = 18446744073709551616 := by norm_num
  rw [e63] at h1 h2
  rw [e63, e64]
  omega

theorem castInt64ToDouble_eq_self {v : ℤ} (h : v.natAbs < 2 ^ 53) :
    castInt64ToDouble v = v := by
  unfold castInt64ToDouble
  split
  · rename_i h0
    have : v.toNat < 2 ^ 53 := by omega
    rw [roundMantissa_eq_self this]
    omega
  · rename_i h0
    have : (-v).toNat < 2 ^ 53 := by omega
    rw [roundMantissa_eq_self this]
    omega

end DoubleCastLemmas

/-!  ### Aggregate / window-function bridge (src/src/aggregate_function.cpp) -/

/-- The tagged local union held in the engine-owned accumulator slot
(`AggregateData`'s `value_type` + payload fields) and, with the same shape, the
start value captured by the `CustomAggregate` constructor (`start_type_` +
payload fields).  A complex host value is kept as an owned reference, modelled
by carrying the `JSValue` itself. -/
inductive RawValue where
  | rawNull
  | rawUndefined
  | rawNumber (x : ℚ)
  | rawString (s : String)
  | rawBoolean (b : Bool)
  | rawBigint (v : ℤ)
  | rawObject (v : JSValue)

/-- Per-invocation accumulator state (`CustomAggregate::AggregateData`),
living in engine-allocated memory. -/
structure AggregateData where
  initialized : Bool
  first_call : Bool
  value : RawValue
  is_window : Bool

/-- One registered aggregate (the `CustomAggregate` instance): flags, the
captured start value, and the host callbacks.  Host callbacks are modelled as
Lean functions returning `Except` (an `error` is a thrown host exception). -/
structure CustomAggregate where
  use_bigint_args : Bool
  start : RawValue
  step_fn : List JSValue → Except String JSValue
  inverse_fn : Option (List JSValue → Except String JSValue)
  result_fn : Option (JSValue → Except String JSValue)

namespace CustomAggregate

/-- The start-value capture in the `CustomAggregate` constructor
(src/src/aggregate_function.cpp:19): primitives stored by value (a host big
integer through the truncating `Int64Value`), anything else as an owned
reference. -/
def captureStart : JSValue → RawValue
  | .null => .rawNull
  | .undefined => .rawUndefined
  | .number x => .rawNumber x
  | .jsString s => .rawString s
  | .boolean b => .rawBoolean b
  | .bigint v => .rawBigint (toInt64Wrap v)
  | other => .rawObject other

/-- `CustomAggregate::GetStartValue` (src/src/aggregate_function.cpp:339). -/
def GetStartValue : RawValue → JSValue
  | .rawNull => .null
  | .rawUndefined => .undefined
  | .rawNumber x => .number x
  | .rawString s => .jsString s
  | .rawBoolean b => .boolean b
  | .rawBigint v => .bigint v
  | .rawObject v => v

/-- `CustomAggregate::StoreJSValueAsRaw` (src/src/aggregate_function.cpp:362):
writes the running value into the accumulator slot (a big integer again
through the truncating `Int64Value`).  The reset of a previously held object
reference only releases host memory and does not affect the stored value. -/
def StoreJSValueAsRaw : JSValue → RawValue
  | .null => .rawNull
  | .undefined => .rawUndefined
  | .number x => .rawNumber x
  | .jsString s => .rawString s
  | .boolean b => .rawBoolean b
  | .bigint v => .rawBigint (toInt64Wrap v)
  | other => .rawObject other

/-- `CustomAggregate::RawValueToJS` (src/src/aggregate_function.cpp:393). -/
def RawValueToJS : RawValue → JSValue
  | .rawNull => .null
  | .rawUndefined => .undefined
  | .rawNumber x => .number x
  | .rawString s => .jsString s
  | .rawBoolean b => .boolean b
  | .rawBigint v => .bigint v
  | .rawObject v => v

/-- `CustomAggregate::GetAggregate` (src/src/aggregate_function.cpp:233).
`none` models the engine-allocated slot before its first touch (uninitialized
memory, `initialized != true`); the function placement-constructs it there.
The allocation-failure path (`sqlite3_aggregate_context` returning NULL) is
out of the model. -/
def GetAggregate : Option AggregateData → AggregateData
  | none =>
    { initialized := true, first_call := true, value := .rawNull,
      is_window := false }
  | some agg => agg

/-- `CustomAggregate::xStepBase` (src/src/aggregate_function.cpp:98), shared by
`xStep` (`useInverse = false`) and `xInverse` (`useInverse = true`).  Returns
the per-call error (if any, via `sqlite3_result_error`) and the accumulator
slot afterwards.  A host callback throw is the `.error` case of the callback;
the code's distinct `Napi::Error` / `std::exception` catch blocks are merged
into one error channel. -/
def xStepBase (self : CustomAggregate) (slot : Option AggregateData)
    (args : List EngineValue) (useInverse : Bool) :
    Option String × Option AggregateData :=
  let agg := GetAggregate slot
  match (if useInverse then self.inverse_fn else some self.step_fn) with
  | none => (some "Inverse function not provided", some agg)
  | some func =>
    let aggVal :=
      if agg.first_call then GetStartValue self.start else RawValueToJS agg.value
    let seeded :=
      if agg.first_call then
        { agg with value := StoreJSValueAsRaw (GetStartValue self.start),
                   first_call := false }
      else agg
    let jsArgs := aggVal :: args.map (SqliteValueToJS self.use_bigint_args)
    match func jsArgs with
    | .error e => (some ("Aggregate step error: " ++ e), some seeded)
    | .ok result =>
      if result.isUndefined then
        (some "Step function returned empty/undefined", some seeded)
      else (none, some { seeded with value := StoreJSValueAsRaw result })

/-- `CustomAggregate::xValueBase` (src/src/aggregate_function.cpp:189), shared
by `xValue` (`finalize = false`) and `xFinal` (`finalize = true`).  The second
component is the accumulator slot afterwards: `none` means the state was
destroyed in place (`agg->~AggregateData()`).  When the result-transform
callback throws, control jumps to the catch block, which only reports the
error — the destruction statement is skipped. -/
def xValueBase (self : CustomAggregate) (slot : Option AggregateData)
    (finalize : Bool) : Except String EngineValue × Option AggregateData :=
  let agg := GetAggregate slot
  let finalValue := RawValueToJS agg.value
  match (match self.result_fn with
         | some rf => rf finalValue
         | none => .ok finalValue) with
  | .error e => (.error e, some agg)
  | .ok v => (JSValueToSqliteResult v, if finalize then none else some agg)

/-- The engine's calling pattern for a plain (non-windowed) aggregate query:
one `xStep` per input row into a freshly allocated slot, then `xFinal`. -/
def stepRows (self : CustomAggregate) (slot : Option AggregateData)
    (rows : List (List EngineValue)) : Option AggregateData :=
  rows.foldl (fun sl row => (xStepBase self sl row false).2) slot

def runAggregateQuery (self : CustomAggregate) (rows : List (List EngineValue)) :
    Except String EngineValue × Option AggregateData :=
  xValueBase self (stepRows self none rows) true

/-- Host step callback `(acc, x) => acc + x`. -/
def sumStep : List JSValue → Except String JSValue
  | [.number acc, .number x] => .ok (.number (acc + x))
  | _ => .error "unexpected arguments"

/-- Host result callback `acc => acc * 2`. -/
def doubleResult : JSValue → Except String JSValue
  | .number acc => .ok (.number (acc * 2))
  | _ => .error "unexpected accumulator"

/-- Registration `{ start: 0, step: (acc, x) => acc + x }`. -/
def sumAggregate : CustomAggregate :=
  { use_bigint_args := false, start := captureStart (.number 0),
    step_fn := sumStep, inverse_fn := none, result_fn := none }

/-- The same registration with `result: acc => acc * 2`. -/
def sumDoubleAggregate : CustomAggregate :=
  { sumAggregate with result_fn := some doubleResult }

end CustomAggregate

/-!  ### Prepared-statement pipeline (src/src/sqlite_impl.cpp) -/

/-- The host-visible error classes the statement paths throw
(shims/node_errors.h): `invalidState` is `THROW_ERR_INVALID_STATE`,
`invalidArgType` is `THROW_ERR_INVALID_ARG_TYPE`, `invalidArgValue` is
`THROW_ERR_INVALID_ARG_VALUE`, `sqliteError` is `THROW_ERR_SQLITE_ERROR`. -/
inductive Err where
  | invalidState (msg : String)
  | invalidArgType (msg : String)
  | invalidArgValue (msg : String)
  | sqliteError (msg : String)
deriving DecidableEq, Repr

/-- The engine behind one prepared statement, for a fixed database content:
`queryRows` gives the full row sequence the statement yields for a given set
of parameter bindings (each row a list of column-name/value pairs in
declaration order); `changes` / `lastInsertRowid` are what the corresponding
connection accessors report after a step; `columnMeta` is the
column-metadata array `Columns` materializes.  A deterministic pure engine:
write effects of stepping are outside the claims. -/
structure EngineModel where
  queryRows : List (ℕ × EngineValue) → List (List (String × EngineValue))
  changes : ℕ
  lastInsertRowid : ℤ
  columnMeta : List JSValue

/-- `StatementSync`'s per-statement fields: lifecycle flags, creation thread,
result/binding option flags, the lazily built bare-name index, the parameter
slot names (1-based, `none` for a nameless positional slot), the bindings
currently attached to the engine statement, the SQL text, and the cursor
position of the engine statement. -/
structure StatementState where
  finalized : Bool
  hasStmt : Bool
  dbOpen : Bool
  creationThread : ℕ
  useBigInts : Bool
  returnArrays : Bool
  allowBareNamedParams : Bool
  bareNamedParams : Option (List (String × String))
  paramNames : List (Option String)
  bindings : List (ℕ × EngineValue)
  sourceSql : String
  position : ℕ

namespace StatementSync

/-- `StatementSync::ValidateThread` (src/src/sqlite_impl.cpp:2423): true when
the calling thread is the creation thread. -/
def ValidateThread (s : StatementState) (tid : ℕ) : Bool :=
  tid == s.creationThread

/-- The error `ValidateThread` throws on a foreign thread. -/
def threadErr : Err :=
  .invalidState "Statement cannot be used from different thread"

/-- `sqlite3_bind_parameter_index`: 1-based index of the slot with exactly
this (prefixed) name, 0 if none. -/
def bindParameterIndexAux : List (Option String) → String → ℕ → ℕ
  | [], _, _ => 0
  | none :: rest, key, i => bindParameterIndexAux rest key (i + 1)
  | some name :: rest, key, i =>
    if name = key then i else bindParameterIndexAux rest key (i + 1)

def bindParameterIndex (names : List (Option String)) (key : String) : ℕ :=
  bindParameterIndexAux names key 1

/-- `sqlite3_bind_*` at a slot: overwrites any binding already at that index,
and is a no-op beyond the statement's parameter count (the engine returns
`SQLITE_RANGE`, which the addon ignores). -/
def setBinding (bs : List (ℕ × EngineValue)) (idx : ℕ) (v : EngineValue) :
    List (ℕ × EngineValue) :=
  if bs.any (fun p => p.1 = idx) then
    bs.map (fun p => if p.1 = idx then (idx, v) else p)
  else bs ++ [(idx, v)]

/-- The collision message thrown while building the bare-name index
(src/src/sqlite_impl.cpp:1647; the source quotes the three names). -/
def bareCollisionMsg (bare existing full : String) : String :=
  "Cannot create bare named parameter " ++ bare ++
    " because of conflicting names " ++ existing ++ " and " ++ full ++ "."

/-- The bare-name index construction loop (src/src/sqlite_impl.cpp:1627):
walks the slots in order, strips each named slot's one-character marker
prefix, and inserts bare → full; two distinct full names with one bare name
abort with the collision error, keeping the entries inserted so far. -/
def buildBareAux : List (Option String) → List (String × String) →
    Option String × List (String × String)
  | [], m => (none, m)
  | none :: rest, m => buildBareAux rest m
  | some full :: rest, m =>
    let bare := full.drop 1
    match m.lookup bare with
    | none => buildBareAux rest (m ++ [(bare, full)])
    | some existing =>
      -- the source tests `full_name != existing_full_name` and throws
      if full = existing then buildBareAux rest m
      else (some (bareCollisionMsg bare existing full), m)

def buildBareNamedParams (names : List (Option String)) :
    Option String × List (String × String) :=
  buildBareAux names []

/-- The named-binding key loop of `StatementSync::BindParameters`
(src/src/sqlite_impl.cpp:1659): exact-name lookup first, then — under
bare-name mode with a built index — the bare-name fallback; unresolved keys
are skipped. -/
def bindNamedLoop (allow : Bool) (names : List (Option String))
    (bare : Option (List (String × String))) (props : List (String × JSValue))
    (bs : List (ℕ × EngineValue)) : List (ℕ × EngineValue) :=
  props.foldl
    (fun bs kv =>
      let idx := bindParameterIndex names kv.1
      let idx :=
        if idx = 0 ∧ allow ∧ bare.isSome then
          match (bare.getD []).lookup kv.1 with
          | some full => bindParameterIndex names full
          | none => 0
        else idx
      if 0 < idx then setBinding bs idx (BindSingleParameter kv.2) else bs)
    bs

/-- The positional-binding loop of `StatementSync::BindParameters`
(src/src/sqlite_impl.cpp:1689): argument N binds 1-based slot N. -/
def bindPositional (names : List (Option String)) (args : List JSValue)
    (bs : List (ℕ × EngineValue)) : List (ℕ × EngineValue) :=
  args.enum.foldl
    (fun bs ia =>
      let idx := ia.1 + 1
      if idx ≤ names.length then setBinding bs idx (BindSingleParameter ia.2)
      else bs)
    bs

/-- Mode selection of `StatementSync::BindParameters`: exactly one remaining
argument that satisfies `IsObject() && !IsBuffer() && !IsArray()` selects
named binding (napi `IsObject` is also true of a function value, whose
enumerable property list is empty). -/
def namedArg? : List JSValue → Option (List (String × JSValue))
  | [.object props] => some props
  | [.jsFunction _] => some []
  | _ => none

/-- `StatementSync::BindParameters` (src/src/sqlite_impl.cpp:1601).  Returns
the thrown error, if any, together with the statement state afterwards (the
bare-name index is stored even when its construction aborts on a collision;
`BindSingleParameter` itself cannot fail in the model, so the per-parameter
rewrap paths are unreachable). -/
def BindParameters (s : StatementState) (args : List JSValue) :
    Option Err × StatementState :=
  if s.finalized then (some (.invalidState "Statement has been finalized"), s)
  else if ¬s.dbOpen then
    (some (.invalidState "Database connection is closed"), s)
  else if ¬s.hasStmt then
    (some (.invalidState "Statement is not properly initialized"), s)
  else
    match namedArg? args with
    | some props =>
      let built :=
        if s.allowBareNamedParams ∧ s.bareNamedParams.isNone then
          let bm := buildBareNamedParams s.paramNames
          (bm.1, { s with bareNamedParams := some bm.2 })
        else (none, s)
      match built.1 with
      | some msg => (some (.invalidState msg), built.2)
      | none =>
        let s' := built.2
        (none, { s' with
          bindings := bindNamedLoop s'.allowBareNamedParams s'.paramNames
            s'.bareNamedParams props s'.bindings })
    | none =>
      (none, { s with
        bindings := bindPositional s.paramNames args s.bindings })

/-- `StatementSync::Reset` (src/src/sqlite_impl.cpp:1890): `sqlite3_reset`
plus `sqlite3_clear_bindings`. -/
def Reset (s : StatementState) : StatementState :=
  { s with position := 0, bindings := [] }

/-- `StatementSync::CreateResult` (src/src/sqlite_impl.cpp:1771) applied to
one fetched row: positional array or named map (a later duplicate column name
overwrites the earlier one, as `Object::Set` does). -/
def setProp (props : List (String × JSValue)) (k : String) (v : JSValue) :
    List (String × JSValue) :=
  if props.any (fun p => p.1 = k) then
    props.map (fun p => if p.1 = k then (k, v) else p)
  else props ++ [(k, v)]

def CreateResult (returnArrays useBigInts : Bool)
    (row : List (String × EngineValue)) : JSValue :=
  if returnArrays then
    .array (row.map (fun c => columnValueToJS useBigInts c.2))
  else
    .object (row.foldl
      (fun acc c => setProp acc c.1 (columnValueToJS useBigInts c.2)) [])

/-- `StatementSync::Run` (src/src/sqlite_impl.cpp:1246): thread check, state
checks, reset + clear bindings, re-bind, one step, then the change counters.
The row data of a returned row is discarded. -/
def Run (eng : EngineModel) (s : StatementState) (tid : ℕ)
    (args : List JSValue) : Except Err (ℕ × JSValue) × StatementState :=
  if ¬ValidateThread s tid then (.error threadErr, s)
  else if s.finalized then
    (.error (.invalidState "Statement has been finalized"), s)
  else if ¬s.dbOpen then
    (.error (.invalidState "Database connection is closed"), s)
  else if ¬s.hasStmt then
    (.error (.invalidState "Statement is not properly initialized"), s)
  else
    let s1 := Reset s
    match BindParameters s1 args with
    | (some e, s') => (.error e, s')
    | (none, s') =>
      let rows := eng.queryRows s'.bindings
      let rowid :=
        -- `last_rowid > 2147483647LL` selects BigInt; the else branch goes
        -- through `static_cast<int32_t>`, which truncates rowids below −2^31
        if 2147483647 < eng.lastInsertRowid then
          JSValue.bigint eng.lastInsertRowid
        else JSValue.number ((toInt32Wrap eng.lastInsertRowid : ℤ) : ℚ)
      (.ok (eng.changes, rowid),
        { s' with position := min 1 rows.length })

/-- `StatementSync::Get` (src/src/sqlite_impl.cpp:1303): thread check, state
checks, reset + clear bindings, re-bind, one step; a row is materialized
immediately, no row maps to host-undefined. -/
def Get (eng : EngineModel) (s : StatementState) (tid : ℕ)
    (args : List JSValue) : Except Err JSValue × StatementState :=
  if ¬ValidateThread s tid then (.error threadErr, s)
  else if s.finalized then
    (.error (.invalidState "Statement has been finalized"), s)
  else if ¬s.dbOpen then
    (.error (.invalidState "Database connection is closed"), s)
  else if ¬s.hasStmt then
    (.error (.invalidState "Statement is not properly initialized"), s)
  else
    let s1 := Reset s
    match BindParameters s1 args with
    | (some e, s') => (.error e, s')
    | (none, s') =>
      match eng.queryRows s'.bindings with
      | [] => (.ok .undefined, s')
      | row :: _ =>
        (.ok (CreateResult s'.returnArrays s'.useBigInts row),
          { s' with position := 1 })

/-- `StatementSync::All` (src/src/sqlite_impl.cpp:1346): NO thread check,
state checks, reset + clear bindings, re-bind, then step to completion
collecting every row. -/
def All (eng : EngineModel) (s : StatementState) (_tid : ℕ)
    (args : List JSValue) : Except Err (List JSValue) × StatementState :=
  if s.finalized then
    (.error (.invalidState "Statement has been finalized"), s)
  else if ¬s.dbOpen then
    (.error (.invalidState "Database connection is closed"), s)
  else if ¬s.hasStmt then
    (.error (.invalidState "Statement is not properly initialized"), s)
  else
    let s1 := Reset s
    match BindParameters s1 args with
    | (some e, s') => (.error e, s')
    | (none, s') =>
      let rows := eng.queryRows s'.bindings
      (.ok (rows.map (CreateResult s'.returnArrays s'.useBigInts)),
        { s' with position := rows.length })

/-- `StatementSync::Iterate` (src/src/sqlite_impl.cpp:1392): NO thread check,
state checks, then `sqlite3_reset` ONLY — prior bindings are kept — and
re-bind whatever arguments were passed.  The returned list is the row
sequence the created iterator yields when driven to completion with no
interleaving statement use (the code steps lazily per `next()`). -/
def Iterate (eng : EngineModel) (s : StatementState) (_tid : ℕ)
    (args : List JSValue) : Except Err (List JSValue) × StatementState :=
  if s.finalized then
    (.error (.invalidState "statement has been finalized"), s)
  else if ¬s.dbOpen then
    (.error (.invalidState "Database connection is closed"), s)
  else if ¬s.hasStmt then
    (.error (.invalidState "Statement is not properly initialized"), s)
  else
    let s1 := { s with position := 0 }
    match BindParameters s1 args with
    | (some e, s') => (.error e, s')
    | (none, s') =>
      (.ok ((eng.queryRows s'.bindings).map
          (CreateResult s'.returnArrays s'.useBigInts)), s')

/-- `StatementSync::FinalizeStatement` (src/src/sqlite_impl.cpp:1424): no
checks of any kind; finalizes once, every further call is a silent no-op. -/
def FinalizeStatement (s : StatementState) (_tid : ℕ) :
    Except Err Unit × StatementState :=
  if s.hasStmt ∧ ¬s.finalized then
    (.ok (), { s with hasStmt := false, finalized := true })
  else (.ok (), s)

/-- `StatementSync::SetReadBigInts` (src/src/sqlite_impl.cpp:1461): NO thread
check; finalized/closed checks, boolean argument check, then set the flag. -/
def SetReadBigInts (s : StatementState) (_tid : ℕ) (args : List JSValue) :
    Except Err Unit × StatementState :=
  if s.finalized then
    (.error (.invalidState "The statement has been finalized"), s)
  else if ¬s.dbOpen then
    (.error (.invalidState "Database connection is closed"), s)
  else
    match args with
    | .boolean b :: _ => (.ok (), { s with useBigInts := b })
    | _ =>
      (.error (.invalidArgType "The \"readBigInts\" argument must be a boolean."),
        s)

/-- `StatementSync::SetReturnArrays` (src/src/sqlite_impl.cpp:1484). -/
def SetReturnArrays (s : StatementState) (_tid : ℕ) (args : List JSValue) :
    Except Err Unit × StatementState :=
  if s.finalized then
    (.error (.invalidState "The statement has been finalized"), s)
  else if ¬s.dbOpen then
    (.error (.invalidState "Database connection is closed"), s)
  else
    match args with
    | .boolean b :: _ => (.ok (), { s with returnArrays := b })
    | _ =>
      (.error (.invalidArgType "The \"returnArrays\" argument must be a boolean."),
        s)

/-- `StatementSync::SetAllowBareNamedParameters` (src/src/sqlite_impl.cpp:1507). -/
def SetAllowBareNamedParameters (s : StatementState) (_tid : ℕ)
    (args : List JSValue) : Except Err Unit × StatementState :=
  if s.finalized then
    (.error (.invalidState "The statement has been finalized"), s)
  else if ¬s.dbOpen then
    (.error (.invalidState "Database connection is closed"), s)
  else
    match args with
    | .boolean b :: _ => (.ok (), { s with allowBareNamedParams := b })
    | _ =>
      (.error (.invalidArgType
          "The \"allowBareNamedParameters\" argument must be a boolean."), s)

/-- `StatementSync::Columns` (src/src/sqlite_impl.cpp:1531): NO thread check;
finalized/closed/handle checks, then the column-metadata array (whose
construction is a mechanical pass-through over the engine accessors, carried
opaquely by the engine model). -/
def Columns (eng : EngineModel) (s : StatementState) (_tid : ℕ) :
    Except Err JSValue × StatementState :=
  if s.finalized then
    (.error (.invalidState "The statement has been finalized"), s)
  else if ¬s.dbOpen then
    (.error (.invalidState "Database connection is closed"), s)
  else if ¬s.hasStmt then
    (.error (.invalidState "Statement is not properly initialized"), s)
  else (.ok (.array eng.columnMeta), s)

end StatementSync

/-- A concrete engine model for the closed-instance theorems: a query
yielding no rows. -/
def emptyEngine : EngineModel :=
  { queryRows := fun _ => [], changes := 0, lastInsertRowid := 0,
    columnMeta := [] }

/-- An engine model whose query echoes one row per bound parameter (column
"v" holding the bound value). -/
def echoEngine : EngineModel :=
  { queryRows := fun bs => bs.map (fun p => [("v", p.2)]),
    changes := 0, lastInsertRowid := 0, columnMeta := [] }

/-- A concrete live statement: open, unfinalized, created on thread 0, one
nameless parameter slot. -/
def baseStatement : StatementState :=
  { finalized := false, hasStmt := true, dbOpen := true, creationThread := 0,
    useBigInts := false, returnArrays := false, allowBareNamedParams := false,
    bareNamedParams := none, paramNames := [none], bindings := [],
    sourceSql := "SELECT ? AS v", position := 0 }

/-- `baseStatement` after finalization. -/
def finalizedStatement : StatementState :=
  { baseStatement with finalized := true, hasStmt := false }

/-- A statement in bare-name mode whose two named parameter slots `:a_x` and
`$a_x` share the bare suffix `a_x`. -/
def bareCollisionStatement : StatementState :=
  { baseStatement with allowBareNamedParams := true,
                       paramNames := [some ":a_x", some "$a_x"] }

/-!  ### Claims -/

/-- C1 (corrected), counterexample: the claim asserts that aggregate-function
argument conversion raises a conversion error for an engine integer outside
the safe-integer envelope (here 2^53 + 1), but
`CustomAggregate::SqliteValueToJS` converts it to a host number with no error
(rounding it to 2^53), while the scalar path does raise. -/
theorem aggregate_arg_conversion_does_not_error :
    CustomAggregate.SqliteValueToJS false (.integer 9007199254740993)
      = .number 9007199254740992 ∧
    UserDefinedFunction.SqliteValueToJS false (.integer 9007199254740993)
      = .error
        "Value is too large to be represented as a JavaScript number: 9007199254740993" := by
  constructor
  · with_unfolding_all rfl
  · with_unfolding_all rfl

/-- C1 (amended): Engine→Host Integer64 conversion with 64-bit-integer mode
off.  Within the native-int (32-bit) range, row fetch, scalar arguments and
aggregate arguments all yield a host Integer; outside it, a row fetch promotes
to a host BigInteger with no error; the SCALAR argument path raises a
conversion error outside the safe-integer envelope (2^53 − 1) and yields an
exact host Integer within it; the AGGREGATE argument path never raises — it
always casts to a host number (possibly rounding). -/
theorem engine_int_to_host_policy (v : ℤ) :
    (-2147483648 ≤ v ∧ v ≤ 2147483647 →
      StatementSync.columnValueToJS false (.integer v) = .number (v : ℚ) ∧
      UserDefinedFunction.SqliteValueToJS false (.integer v)
        = .ok (.number (v : ℚ)) ∧
      CustomAggregate.SqliteValueToJS false (.integer v) = .number (v : ℚ)) ∧
    (v < -2147483648 ∨ 2147483647 < v →
      StatementSync.columnValueToJS false (.integer v) = .bigint v) ∧
    (v.natAbs ≤ 9007199254740991 →
      UserDefinedFunction.SqliteValueToJS false (.integer v)
        = .ok (.number (v : ℚ))) ∧
    (9007199254740991 < v.natAbs →
      UserDefinedFunction.SqliteValueToJS false (.integer v)
        = .error ("Value is too large to be represented as a JavaScript number: "
            ++ toString v)) ∧
    CustomAggregate.SqliteValueToJS false (.integer v)
      = .number ((castInt64ToDouble v : ℤ) : ℚ) := by
  refine ⟨?_, ?_, ?_, ?_, ?_⟩
  · intro h
    have hc : castInt64ToDouble v = v :=
      castInt64ToDouble_eq_self (by omega)
    refine ⟨?_, ?_, ?_⟩
    · simp only [StatementSync.columnValueToJS]
      rw [if_neg (by simp), if_neg (by omega)]
    · simp only [UserDefinedFunction.SqliteValueToJS]
      rw [if_neg (by simp), if_pos (by omega)]
    · simp only [CustomAggregate.SqliteValueToJS]
      rw [if_neg (by simp), hc]
  · intro h
    simp only [StatementSync.columnValueToJS]
    rw [if_neg (by simp), if_pos (by omega)]
  · intro h
    simp only [UserDefinedFunction.SqliteValueToJS]
    rw [if_neg (by simp)]
    by_cases h32 : -2147483648 ≤ v ∧ v ≤ 2147483647
    · rw [if_pos h32]
    · rw [if_neg h32, if_neg (by omega),
        castInt64ToDouble_eq_self (by omega)]
  · intro h
    simp only [UserDefinedFunction.SqliteValueToJS]
    rw [if_neg (by simp), if_neg (by omega), if_pos (by omega)]
  · simp only [CustomAggregate.SqliteValueToJS]
    rw [if_neg (by simp)]

/-- Witness for `engine_int_to_host_policy` at v = 3000000000 (outside int32,
inside the safe envelope). -/
theorem engine_int_to_host_policy_witness :
    ((-2147483648 ≤ (3000000000 : ℤ) ∧ (3000000000 : ℤ) ≤ 2147483647) = False) ∧
    ((3000000000 : ℤ) < -2147483648 ∨ (2147483647 : ℤ) < 3000000000) ∧
    (3000000000 : ℤ).natAbs ≤ 9007199254740991 ∧
    StatementSync.columnValueToJS false (.integer 3000000000)
      = .bigint 3000000000 ∧
    UserDefinedFunction.SqliteValueToJS false (.integer 3000000000)
      = .ok (.number (3000000000 : ℚ)) := by
  refine ⟨by simp, by right; norm_num, by norm_num, ?_, ?_⟩
  · exact (engine_int_to_host_policy 3000000000).2.1 (by right; norm_num)
  · exact (engine_int_to_host_policy 3000000000).2.2.1 (by norm_num)

/-- C2 (corrected), counterexample: the claim asserts that a host BigInteger
not representable in int64 (here 2^63) converts to engine Text on the
aggregate-result path, but `CustomAggregate::JSValueToSqliteResult` raises an
error there; the scalar-result path does emit the decimal Text. -/
theorem aggregate_bigint_result_errors :
    CustomAggregate.JSValueToSqliteResult (.bigint 9223372036854775808)
      = .error "BigInt value too large for SQLite" ∧
    UserDefinedFunction.JSValueToSqliteResult (.bigint 9223372036854775808)
      = .ok (.text "9223372036854775808") := by
  constructor
  · with_unfolding_all rfl
  · with_unfolding_all rfl

/-- C2 (amended): Host→Engine BigInteger conversion.  When the value fits a
64-bit signed integer, all three paths (parameter binding, scalar result,
aggregate result) yield engine Integer64.  When it does not, parameter
binding and the scalar result yield engine Text holding the decimal string,
but the aggregate result path raises "BigInt value too large for SQLite"
instead of converting. -/
theorem bigint_host_to_engine_policy (v : ℤ) :
    (int64Lossless v = true →
      StatementSync.BindSingleParameter (.bigint v) = .integer v ∧
      UserDefinedFunction.JSValueToSqliteResult (.bigint v)
        = .ok (.integer v) ∧
      CustomAggregate.JSValueToSqliteResult (.bigint v) = .ok (.integer v)) ∧
    (int64Lossless v = false →
      StatementSync.BindSingleParameter (.bigint v) = .text (toString v) ∧
      UserDefinedFunction.JSValueToSqliteResult (.bigint v)
        = .ok (.text (toString v)) ∧
      CustomAggregate.JSValueToSqliteResult (.bigint v)
        = .error "BigInt value too large for SQLite") := by
  constructor
  · intro h
    refine ⟨?_, ?_, ?_⟩ <;>
      simp [StatementSync.BindSingleParameter,
        UserDefinedFunction.JSValueToSqliteResult,
        CustomAggregate.JSValueToSqliteResult, h]
  · intro h
    refine ⟨?_, ?_, ?_⟩ <;>
      simp [StatementSync.BindSingleParameter,
        UserDefinedFunction.JSValueToSqliteResult,
        CustomAggregate.JSValueToSqliteResult, h]

/-- Witness for `bigint_host_to_engine_policy` at v = 7 (lossless) and
v = 2^64 (not lossless). -/
theorem bigint_host_to_engine_policy_witness :
    int64Lossless 7 = true ∧
    StatementSync.BindSingleParameter (.bigint 7) = .integer 7 ∧
    int64Lossless 18446744073709551616 = false ∧
    StatementSync.BindSingleParameter (.bigint 18446744073709551616)
      = .text "18446744073709551616" := by
  have h1 : int64Lossless 7 = true := by decide
  have h2 : int64Lossless 18446744073709551616 = false := by decide
  exact ⟨h1, ((bigint_host_to_engine_policy 7).1 h1).1, h2,
    ((bigint_host_to_engine_policy 18446744073709551616).2 h2).1⟩

/-- C3 (confirmed): aggregate stepping protocol.  On a first Step (and a
first Inverse) the running value is seeded from the registration's captured
start value and `first_call` clears; every subsequent Step calls the host
step callback with the current running value followed by the converted row
arguments and replaces the running value with the callback's return; the
aggregate `start: 0, step: (acc, x) => acc + x` over rows [1, 2, 3]
finalizes to 6, and with `result: acc => acc * 2` to 12. -/
theorem aggregate_step_protocol :
    (∀ (self : CustomAggregate) (agg : AggregateData)
        (args : List EngineValue) (r : JSValue),
      agg.first_call = true →
      self.step_fn (CustomAggregate.GetStartValue self.start ::
          args.map (CustomAggregate.SqliteValueToJS self.use_bigint_args))
        = .ok r →
      r.isUndefined = false →
      CustomAggregate.xStepBase self (some agg) args false =
        (none, some { agg with
                      first_call := false,
                      value := CustomAggregate.StoreJSValueAsRaw r })) ∧
    (∀ (self : CustomAggregate) (agg : AggregateData)
        (args : List EngineValue) (g : List JSValue → Except String JSValue)
        (r : JSValue),
      agg.first_call = true →
      self.inverse_fn = some g →
      g (CustomAggregate.GetStartValue self.start ::
          args.map (CustomAggregate.SqliteValueToJS self.use_bigint_args))
        = .ok r →
      r.isUndefined = false →
      CustomAggregate.xStepBase self (some agg) args true =
        (none, some { agg with
                      first_call := false,
                      value := CustomAggregate.StoreJSValueAsRaw r })) ∧
    (∀ (self : CustomAggregate) (agg : AggregateData)
        (args : List EngineValue) (r : JSValue),
      agg.first_call = false →
      self.step_fn (CustomAggregate.RawValueToJS agg.value ::
          args.map (CustomAggregate.SqliteValueToJS self.use_bigint_args))
        = .ok r →
      r.isUndefined = false →
      CustomAggregate.xStepBase self (some agg) args false =
        (none, some { agg with value := CustomAggregate.StoreJSValueAsRaw r })) ∧
    (CustomAggregate.runAggregateQuery CustomAggregate.sumAggregate
        [[.integer 1], [.integer 2], [.integer 3]]).1 = .ok (.integer 6) ∧
    (CustomAggregate.runAggregateQuery CustomAggregate.sumDoubleAggregate
        [[.integer 1], [.integer 2], [.integer 3]]).1 = .ok (.integer 12) := by
  refine ⟨?_, ?_, ?_, ?_, ?_⟩
  · intro self agg args r hfc hstep hr
    simp only [CustomAggregate.xStepBase, CustomAggregate.GetAggregate, hfc,
      if_true, Bool.false_eq_true, if_false, hstep, hr]
  · intro self agg args g r hfc hinv hstep hr
    simp only [CustomAggregate.xStepBase, CustomAggregate.GetAggregate, hfc,
      hinv, if_true, Bool.false_eq_true, if_false, hstep, hr]
  · intro self agg args r hfc hstep hr
    simp only [CustomAggregate.xStepBase, CustomAggregate.GetAggregate, hfc,
      if_true, Bool.false_eq_true, if_false, hstep, hr]
  · with_unfolding_all rfl
  · with_unfolding_all rfl

/-- Witness for `aggregate_step_protocol`: the first step of the sum
aggregate over the row [1] seeds from start 0 and stores 0 + 1 = 1. -/
theorem aggregate_step_protocol_witness :
    CustomAggregate.xStepBase CustomAggregate.sumAggregate
        (some { initialized := true, first_call := true, value := .rawNull,
                is_window := false }) [.integer 1] false
      = (none, some { initialized := true,
                      first_call := false,
                      value := CustomAggregate.StoreJSValueAsRaw (.number 1),
                      is_window := false }) := by
  exact aggregate_step_protocol.1 CustomAggregate.sumAggregate
    { initialized := true, first_call := true, value := .rawNull,
      is_window := false } [.integer 1] (.number 1) rfl
    (by with_unfolding_all rfl) rfl

/-- C4 (code_bug): `CustomAggregate::xValueBase` with `finalize = true`
(the Final entry point) destroys the accumulator state on the success path,
but when the result-transform callback throws, the catch block only reports
the per-call error and the `agg->~AggregateData()` destruction is SKIPPED —
the state survives the error path, contradicting the spec's requirement that
the error path run the same destruction as the success path. -/
theorem xFinal_error_path_skips_destruction :
    CustomAggregate.xValueBase
        { CustomAggregate.sumAggregate with
            result_fn := some (fun _ => .error "result transform failed") }
        (some { initialized := true, first_call := false,
                value := .rawNumber 5, is_window := false }) true
      = (.error "result transform failed",
         some { initialized := true, first_call := false,
                value := .rawNumber 5, is_window := false }) ∧
    (CustomAggregate.xValueBase CustomAggregate.sumAggregate
        (some { initialized := true, first_call := false,
                value := .rawNumber 5, is_window := false }) true).2
      = none := by
  constructor
  · with_unfolding_all rfl
  · with_unfolding_all rfl

/-- C5 (corrected), counterexample: the host float 2^40 is integral and well
inside the 64-bit signed range, so the claim requires every Host→Engine path
to convert it to engine Integer64; `StatementSync::BindSingleParameter` binds
it as a double (its integer fast path stops at the 32-bit bounds), while the
scalar-result path does produce Integer64. -/
theorem bind_float_int32_asymmetry :
    StatementSync.BindSingleParameter (.number 1099511627776)
      = .float 1099511627776 ∧
    UserDefinedFunction.JSValueToSqliteResult (.number 1099511627776)
      = .ok (.integer 1099511627776) := by
  constructor
  · with_unfolding_all rfl
  · with_unfolding_all rfl

/-- C5 (amended): Host Float → Engine conversion.  The scalar-result and
aggregate-result paths agree: integral values within the 64-bit signed range
[−2^63, 2^63 − 1] become Integer64 exactly, integral values beyond the
double-rounded comparison bounds become Float64.  (The single double +2^63
passes the code's `<= (double)INT64_MAX` comparison but its int64 cast is
undefined behavior, so no conversion result is claimed there.)  The
parameter-binding path uses the 32-bit bounds instead: an integral value
outside [−2^31, 2^31 − 1] is bound as Float64 even when it fits int64. -/
theorem float_host_to_engine_policy (n : ℤ) (x : ℚ) :
    (x = (n : ℚ) → -2147483648 ≤ n ∧ n ≤ 2147483647 →
      StatementSync.BindSingleParameter (.number x) = .integer n ∧
      UserDefinedFunction.JSValueToSqliteResult (.number x)
        = .ok (.integer n) ∧
      CustomAggregate.JSValueToSqliteResult (.number x) = .ok (.integer n)) ∧
    (x = (n : ℚ) → (n < -2147483648 ∨ 2147483647 < n) →
        -(2 ^ 63) ≤ n ∧ n ≤ 2 ^ 63 - 1 →
      StatementSync.BindSingleParameter (.number x) = .float x ∧
      UserDefinedFunction.JSValueToSqliteResult (.number x)
        = .ok (.integer n) ∧
      CustomAggregate.JSValueToSqliteResult (.number x) = .ok (.integer n)) ∧
    (x = (n : ℚ) → (n < -(2 ^ 63) ∨ 2 ^ 63 < n) →
      StatementSync.BindSingleParameter (.number x) = .float x ∧
      UserDefinedFunction.JSValueToSqliteResult (.number x) = .ok (.float x) ∧
      CustomAggregate.JSValueToSqliteResult (.number x) = .ok (.float x)) ∧
    (x.den ≠ 1 →
      StatementSync.BindSingleParameter (.number x) = .float x ∧
      UserDefinedFunction.JSValueToSqliteResult (.number x) = .ok (.float x) ∧
      CustomAggregate.JSValueToSqliteResult (.number x) = .ok (.float x)) := by
  refine ⟨?_, ?_, ?_, ?_⟩
  · rintro rfl ⟨h1, h2⟩
    have hlo : (-2147483648 : ℚ) ≤ (n : ℚ) := by exact_mod_cast h1
    have hhi : ((n : ℚ)) ≤ (2147483647 : ℚ) := by exact_mod_cast h2
    have hlo63 : (-(2 ^ 63) : ℚ) ≤ (n : ℚ) := by
      have h' : (-(2 ^ 63) : ℤ) ≤ n := by
        have : ((2 : ℤ) ^ 63) = 9223372036854775808 := by norm_num
        omega
      exact_mod_cast h'
    have hhi63 : ((n : ℚ)) ≤ (2 ^ 63 : ℚ) := by
      have h' : n ≤ ((2 : ℤ) ^ 63) := by
        have : ((2 : ℤ) ^ 63) = 9223372036854775808 := by norm_num
        omega
      exact_mod_cast h'
    have hnum : ((n : ℚ)).num = n := by simp
    have hw : toInt64Wrap ((n : ℚ)).num = n := by
      rw [hnum]
      refine toInt64Wrap_eq_self ?_ ?_ <;>
      · have : ((2 : ℤ) ^ 63) = 9223372036854775808 := by norm_num
        omega
    refine ⟨?_, ?_, ?_⟩
    · simp only [StatementSync.BindSingleParameter]
      rw [if_pos ⟨by simp, hlo, hhi⟩]
      simp
    · simp only [UserDefinedFunction.JSValueToSqliteResult]
      rw [if_pos ⟨by simp, hlo63, hhi63⟩, hw]
    · simp only [CustomAggregate.JSValueToSqliteResult]
      rw [if_pos ⟨by simp, hlo63, hhi63⟩, hw]
  · rintro rfl h32 ⟨h1, h2⟩
    have hlo : (-(2 ^ 63) : ℚ) ≤ (n : ℚ) := by exact_mod_cast h1
    have hhi : ((n : ℚ)) ≤ (2 ^ 63 : ℚ) := by
      have h' : n ≤ ((2 : ℤ) ^ 63) := by
        have : ((2 : ℤ) ^ 63) = 9223372036854775808 := by norm_num
        omega
      exact_mod_cast h'
    have h32q : ¬(((n : ℚ)).den = 1 ∧ (-2147483648 : ℚ) ≤ (n : ℚ) ∧
        (n : ℚ) ≤ (2147483647 : ℚ)) := by
      rintro ⟨-, hlo', hhi'⟩
      have hlo'' : (-2147483648 : ℤ) ≤ n := by exact_mod_cast hlo'
      have hhi'' : n ≤ (2147483647 : ℤ) := by exact_mod_cast hhi'
      omega
    have hnum : ((n : ℚ)).num = n := by simp
    have hw : toInt64Wrap ((n : ℚ)).num = n := by
      rw [hnum]
      exact toInt64Wrap_eq_self h1 h2
    refine ⟨?_, ?_, ?_⟩
    · simp only [StatementSync.BindSingleParameter]
      rw [if_neg h32q]
    · simp only [UserDefinedFunction.JSValueToSqliteResult]
      rw [if_pos ⟨by simp, hlo, hhi⟩, hw]
    · simp only [CustomAggregate.JSValueToSqliteResult]
      rw [if_pos ⟨by simp, hlo, hhi⟩, hw]
  · rintro rfl h63
    have hq : ¬((-(2 ^ 63) : ℚ) ≤ (n : ℚ) ∧ (n : ℚ) ≤ (2 ^ 63 : ℚ)) := by
      rintro ⟨hlo', hhi'⟩
      have hlo'' : (-(2 ^ 63) : ℤ) ≤ n := by exact_mod_cast hlo'
      have hhi'' : n ≤ ((2 : ℤ) ^ 63) := by exact_mod_cast hhi'
      rcases h63 with h | h
      · have : ((2 : ℤ) ^ 63) = 9223372036854775808 := by norm_num
        omega
      · have : ((2 : ℤ) ^ 63) = 9223372036854775808 := by norm_num
        omega
    have h32q : ¬(((n : ℚ)).den = 1 ∧ (-2147483648 : ℚ) ≤ (n : ℚ) ∧
        (n : ℚ) ≤ (2147483647 : ℚ)) := by
      rintro ⟨-, hlo', hhi'⟩
      have hlo'' : (-2147483648 : ℤ) ≤ n := by exact_mod_cast hlo'
      have hhi'' : n ≤ (2147483647 : ℤ) := by exact_mod_cast hhi'
      have h63' : ((2 : ℤ) ^ 63) = 9223372036854775808 := by norm_num
      rcases h63 with h | h <;> omega
    refine ⟨?_, ?_, ?_⟩
    · simp only [StatementSync.BindSingleParameter]
      rw [if_neg h32q]
    · simp only [UserDefinedFunction.JSValueToSqliteResult]
      rw [if_neg (by rintro ⟨-, hlo', hhi'⟩; exact hq ⟨hlo', hhi'⟩)]
    · simp only [CustomAggregate.JSValueToSqliteResult]
      rw [if_neg (by rintro ⟨-, hlo', hhi'⟩; exact hq ⟨hlo', hhi'⟩)]
  · intro hden
    refine ⟨?_, ?_, ?_⟩
    · simp only [StatementSync.BindSingleParameter]
      rw [if_neg (by rintro ⟨h, -⟩; exact hden h)]
    · simp only [UserDefinedFunction.JSValueToSqliteResult]
      rw [if_neg (by rintro ⟨h, -⟩; exact hden h)]
    · simp only [CustomAggregate.JSValueToSqliteResult]
      rw [if_neg (by rintro ⟨h, -⟩; exact hden h)]

/-- Witness for `float_host_to_engine_policy` at n = 5 (x = 5, integral and
in int32 range) and at the non-integral x = 1/2. -/
theorem float_host_to_engine_policy_witness :
    StatementSync.BindSingleParameter (.number 5) = .integer 5 ∧
    StatementSync.BindSingleParameter (.number (1 / 2)) = .float (1 / 2) := by
  constructor
  · exact ((float_host_to_engine_policy 5 5).1 (by norm_num)
      (by norm_num)).1
  · exact ((float_host_to_engine_policy 0 (1 / 2)).2.2.2 (by norm_num)).1

/-- C6 (corrected), counterexample: calling `All` from thread 1 on a
statement created on thread 0 does not fail with a State error — it runs the
query normally.  The claim requires EVERY public statement operation to
reject cross-thread use. -/
theorem all_cross_thread_does_not_error :
    StatementSync.ValidateThread baseStatement 1 = false ∧
    (StatementSync.All emptyEngine baseStatement 1 []).1 = .ok [] := by
  constructor
  · rfl
  · with_unfolding_all rfl

/-- C6 (amended): only `run` and `get` validate the calling thread — from a
foreign thread they fail with the State error "Statement cannot be used from
different thread", touching neither the engine nor the statement state.
`all`, `iterate`, `finalize`, the three setters and `columns` perform no
thread check at all: they behave identically on every calling thread. -/
theorem statement_thread_validation_policy (eng : EngineModel)
    (s : StatementState) (tid tid' : ℕ) (args : List JSValue) :
    (StatementSync.ValidateThread s tid = false →
      StatementSync.Run eng s tid args = (.error StatementSync.threadErr, s) ∧
      StatementSync.Get eng s tid args = (.error StatementSync.threadErr, s)) ∧
    StatementSync.All eng s tid args = StatementSync.All eng s tid' args ∧
    StatementSync.Iterate eng s tid args
      = StatementSync.Iterate eng s tid' args ∧
    StatementSync.FinalizeStatement s tid
      = StatementSync.FinalizeStatement s tid' ∧
    StatementSync.SetReadBigInts s tid args
      = StatementSync.SetReadBigInts s tid' args ∧
    StatementSync.SetReturnArrays s tid args
      = StatementSync.SetReturnArrays s tid' args ∧
    StatementSync.SetAllowBareNamedParameters s tid args
      = StatementSync.SetAllowBareNamedParameters s tid' args ∧
    StatementSync.Columns eng s tid = StatementSync.Columns eng s tid' := by
  refine ⟨?_, rfl, rfl, rfl, rfl, rfl, rfl, rfl⟩
  intro h
  constructor
  · simp [StatementSync.Run, h]
  · simp [StatementSync.Get, h]

/-- Witness for `statement_thread_validation_policy`: thread 1 against the
thread-0 statement. -/
theorem statement_thread_validation_policy_witness :
    StatementSync.ValidateThread baseStatement 1 = false ∧
    StatementSync.Run emptyEngine baseStatement 1 []
      = (.error StatementSync.threadErr, baseStatement) := by
  refine ⟨rfl, ?_⟩
  exact ((statement_thread_validation_policy emptyEngine baseStatement 1 0
    []).1 rfl).1

/-- C7 (confirmed): finalizing a live statement succeeds and marks it
finalized; on a finalized statement every operation (`run` and `get` on the
creation thread, `all`, `iterate`, `columns` and the setters on any thread)
fails with a State error and leaves the state untouched, while a second
`finalize` is a no-op that succeeds without error. -/
theorem finalized_statement_policy (eng : EngineModel) (s : StatementState)
    (tid : ℕ) (args : List JSValue) :
    (s.hasStmt = true →
      (StatementSync.FinalizeStatement s tid).1 = .ok () ∧
      (StatementSync.FinalizeStatement s tid).2.finalized = true) ∧
    (s.finalized = true →
      StatementSync.FinalizeStatement s tid = (.ok (), s) ∧
      StatementSync.Run eng s s.creationThread args
        = (.error (.invalidState "Statement has been finalized"), s) ∧
      StatementSync.Get eng s s.creationThread args
        = (.error (.invalidState "Statement has been finalized"), s) ∧
      StatementSync.All eng s tid args
        = (.error (.invalidState "Statement has been finalized"), s) ∧
      StatementSync.Iterate eng s tid args
        = (.error (.invalidState "statement has been finalized"), s) ∧
      StatementSync.Columns eng s tid
        = (.error (.invalidState "The statement has been finalized"), s) ∧
      StatementSync.SetReadBigInts s tid args
        = (.error (.invalidState "The statement has been finalized"), s) ∧
      StatementSync.SetReturnArrays s tid args
        = (.error (.invalidState "The statement has been finalized"), s) ∧
      StatementSync.SetAllowBareNamedParameters s tid args
        = (.error (.invalidState "The statement has been finalized"), s)) := by
  constructor
  · intro h
    unfold StatementSync.FinalizeStatement
    by_cases hf : s.finalized
    · simp [h, hf]
    · simp [h, hf]
  · intro h
    refine ⟨?_, ?_, ?_, ?_, ?_, ?_, ?_, ?_, ?_⟩
    · unfold StatementSync.FinalizeStatement
      simp [h]
    · simp [StatementSync.Run, StatementSync.ValidateThread, h]
    · simp [StatementSync.Get, StatementSync.ValidateThread, h]
    · simp [StatementSync.All, h]
    · simp [StatementSync.Iterate, h]
    · simp [StatementSync.Columns, h]
    · simp [StatementSync.SetReadBigInts, h]
    · simp [StatementSync.SetReturnArrays, h]
    · simp [StatementSync.SetAllowBareNamedParameters, h]

section BareNameLemmas

theorem lookup_append_left {m l : List (String × String)} {b : String}
    {v : String} (h : m.lookup b = some v) : (m ++ l).lookup b = some v := by
  induction m with
  | nil => simp [List.lookup] at h
  | cons p rest ih =>
    rcases p with ⟨k, w⟩
    by_cases hk : b = k
    · subst hk
      simp only [List.lookup, List.cons_append, beq_self_eq_true] at h ⊢
      exact h
    · simp only [List.lookup, List.cons_append, beq_false_of_ne hk] at h ⊢
      exact ih h

theorem lookup_append_right {m : List (String × String)} {b : String}
    {v : String} (h : m.lookup b = none) :
    (m ++ [(b, v)]).lookup b = some v := by
  induction m with
  | nil => simp [List.lookup]
  | cons p rest ih =>
    rcases p with ⟨k, w⟩
    by_cases hk : b = k
    · subst hk
      simp only [List.lookup, beq_self_eq_true] at h
      exact Option.noConfusion h
    · simp only [List.lookup, List.cons_append, beq_false_of_ne hk] at h ⊢
      exact ih h

/-- `buildBareAux` only ever appends entries, so an existing successful
lookup survives. -/
theorem buildBareAux_preserves {b v : String} :
    ∀ (names : List (Option String)) (m : List (String × String)),
      m.lookup b = some v →
      ((StatementSync.buildBareAux names m).2).lookup b = some v := by
  intro names
  induction names with
  | nil => intro m h; simpa [StatementSync.buildBareAux] using h
  | cons name? rest ih =>
    intro m h
    match name? with
    | none => simpa [StatementSync.buildBareAux] using ih m h
    | some full =>
      simp only [StatementSync.buildBareAux]
      rcases hl : m.lookup (full.drop 1) with - | existing
      · exact ih (m ++ [(full.drop 1, full)]) (lookup_append_left h)
      · by_cases he : full = existing
        · simpa [he] using ih m h
        · simpa [he] using h

/-- If the bare-name index builds without a collision error, every named slot
resolves through it back to its own full name. -/
theorem buildBareAux_ok_lookup :
    ∀ (names : List (Option String)) (m : List (String × String)),
      (StatementSync.buildBareAux names m).1 = none →
      ∀ full : String, some full ∈ names →
        ((StatementSync.buildBareAux names m).2).lookup (full.drop 1)
          = some full := by
  intro names
  induction names with
  | nil => intro m _ full hmem; simp at hmem
  | cons name? rest ih =>
    intro m hok full hmem
    match name? with
    | none =>
      simp only [StatementSync.buildBareAux] at hok ⊢
      rcases List.mem_cons.mp hmem with h | h
      · exact absurd h (by simp)
      · exact ih m hok full h
    | some g =>
      simp only [StatementSync.buildBareAux] at hok ⊢
      rcases hl : m.lookup (g.drop 1) with - | existing
      · rw [hl] at hok
        rcases List.mem_cons.mp hmem with h | h
        · have hg : full = g := by simpa using h
          subst hg
          exact buildBareAux_preserves rest (m ++ [(full.drop 1, full)])
            (lookup_append_right hl)
        · exact ih (m ++ [(g.drop 1, g)]) hok full h
      · rw [hl] at hok
        by_cases he : g = existing
        · subst he
          have hok' : (StatementSync.buildBareAux rest m).1 = none := by
            simpa using hok
          rcases List.mem_cons.mp hmem with h | h
          · have hg : full = g := by simpa using h
            subst hg
            simpa using buildBareAux_preserves rest m hl
          · simpa using ih m hok' full h
        · simp [he] at hok

end BareNameLemmas

/-- C8 (confirmed): under bare-name mode, a statement whose parameter list
holds two distinct full names with the same bare suffix makes any by-name
bind fail while building the bare-name index — the spec's ConfigurationError,
thrown as the engine-state error carrying the collision message — before any
parameter value is bound: the returned state differs from the input only in
the stored (partial) index, its bindings untouched. -/
theorem bare_collision_errors_before_binding (s : StatementState)
    (props : List (String × JSValue)) (n1 n2 : String)
    (h1 : some n1 ∈ s.paramNames) (h2 : some n2 ∈ s.paramNames)
    (hne : n1 ≠ n2) (hbare : n1.drop 1 = n2.drop 1)
    (hallow : s.allowBareNamedParams = true)
    (hidx : s.bareNamedParams = none)
    (hf : s.finalized = false) (ho : s.dbOpen = true)
    (hs : s.hasStmt = true) :
    ∃ msg m, StatementSync.BindParameters s [.object props]
      = (some (.invalidState msg),
         { s with bareNamedParams := some m }) := by
  have hcol : (StatementSync.buildBareNamedParams s.paramNames).1 ≠ none := by
    intro hok
    have l1 := buildBareAux_ok_lookup s.paramNames [] hok n1 h1
    have l2 := buildBareAux_ok_lookup s.paramNames [] hok n2 h2
    rw [hbare] at l1
    rw [l1] at l2
    exact hne (Option.some.inj l2)
  rcases hmsg : (StatementSync.buildBareNamedParams s.paramNames).1 with - | msg
  · exact absurd hmsg hcol
  · refine ⟨msg, (StatementSync.buildBareNamedParams s.paramNames).2, ?_⟩
    simp [StatementSync.BindParameters, StatementSync.namedArg?, hf, ho, hs,
      hallow, hidx, hmsg]

/-- Witness for `bare_collision_errors_before_binding` on
`bareCollisionStatement` (slots `:a_x` and `$a_x`). -/
theorem bare_collision_errors_before_binding_witness :
    ∃ msg m, StatementSync.BindParameters bareCollisionStatement [.object []]
      = (some (.invalidState msg),
         { bareCollisionStatement with bareNamedParams := some m }) :=
  bare_collision_errors_before_binding bareCollisionStatement [] ":a_x" "$a_x"
    (by simp [bareCollisionStatement, baseStatement])
    (by simp [bareCollisionStatement, baseStatement])
    (by decide) (by decide) rfl rfl rfl rfl rfl

/-- After a successful bind from a freshly reset statement, re-running the
reset + bind with the same arguments reproduces the same bindings: the only
state `BindParameters` carries over is the once-built bare-name index, which
is deterministic in the parameter names.  Gives the lifecycle frame facts and
the second-call equation used for re-execution claims. -/
theorem rebind_after_ok (s : StatementState) (args : List JSValue)
    (s1 : StatementState)
    (hb : StatementSync.BindParameters (StatementSync.Reset s) args
      = (none, s1)) :
    s1.finalized = s.finalized ∧ s1.dbOpen = s.dbOpen ∧
    s1.hasStmt = s.hasStmt ∧
    StatementSync.BindParameters (StatementSync.Reset s1) args
      = (none, { s1 with position := 0 }) := by
  by_cases hf : s.finalized = true
  · simp [StatementSync.BindParameters, StatementSync.Reset, hf] at hb
  by_cases ho : s.dbOpen = true
  swap
  · simp [StatementSync.BindParameters, StatementSync.Reset, hf, ho] at hb
  by_cases hsm : s.hasStmt = true
  swap
  · simp [StatementSync.BindParameters, StatementSync.Reset, hf, ho, hsm]
      at hb
  have hf' : s.finalized = false := by simpa using hf
  rcases hna : StatementSync.namedArg? args with - | props
  · simp [StatementSync.BindParameters, StatementSync.Reset, hf, ho, hsm,
      hna] at hb
    subst hb
    refine ⟨hf'.symm, ho.symm, hsm.symm, ?_⟩
    simp [StatementSync.BindParameters, StatementSync.Reset, hf, ho, hsm,
      hna]
  · by_cases hbn : s.allowBareNamedParams = true ∧
      s.bareNamedParams = none
    · rcases hbm : (StatementSync.buildBareNamedParams s.paramNames).1
        with - | msg
      · simp [StatementSync.BindParameters, StatementSync.Reset, hf, ho,
          hsm, hna, hbn.1, hbn.2, hbm] at hb
        subst hb
        refine ⟨hf'.symm, ho.symm, hsm.symm, ?_⟩
        simp [StatementSync.BindParameters, StatementSync.Reset, hf, ho,
          hsm, hna]
      · simp [StatementSync.BindParameters, StatementSync.Reset, hf, ho,
          hsm, hna, hbn.1, hbn.2, hbm] at hb
    · simp [StatementSync.BindParameters, StatementSync.Reset, hf, ho, hsm,
        hna, hbn] at hb
      subst hb
      refine ⟨hf'.symm, ho.symm, hsm.symm, ?_⟩
      simp [StatementSync.BindParameters, StatementSync.Reset, hf, ho, hsm,
        hna, hbn]

/-- C9 (confirmed): `all` is re-executable — a second `all` with the same
arguments, from the state the first left behind, returns the same row set
(and leaves the state fixed), because every call resets the cursor and
clears prior bindings on entry and re-binds from scratch. -/
theorem all_twice_identical (eng : EngineModel) (s : StatementState)
    (tid tid' : ℕ) (args : List JSValue) (rows : List JSValue)
    (h : (StatementSync.All eng s tid args).1 = .ok rows) :
    StatementSync.All eng (StatementSync.All eng s tid args).2 tid' args
      = (.ok rows, (StatementSync.All eng s tid args).2) := by
  by_cases hf : s.finalized = true
  · simp [StatementSync.All, hf] at h
  by_cases ho : s.dbOpen = true
  swap
  · simp [StatementSync.All, hf, ho] at h
  by_cases hsm : s.hasStmt = true
  swap
  · simp [StatementSync.All, hf, ho, hsm] at h
  rcases hbp : StatementSync.BindParameters (StatementSync.Reset s) args
    with ⟨err?, s1⟩
  cases err? with
  | some e => simp [StatementSync.All, hf, ho, hsm, hbp] at h
  | none =>
    obtain ⟨hfe, hoe, hse, hb2⟩ := rebind_after_ok s args s1 hbp
    have hf' : s.finalized = false := by simpa using hf
    simp only [StatementSync.All, hf, ho, hsm, hbp, Bool.false_eq_true,
      if_false, if_true, not_true, not_false_eq_true, ite_true,
      ite_false] at h ⊢
    simp only [StatementSync.Reset] at hb2
    simp only [hfe, hoe, hse, hf', ho, hsm] at hb2
    simp [StatementSync.Reset, hfe, hf', hoe, ho, hse, hsm, hb2, h]

/-- Witness for `all_twice_identical`: two `all` calls with the bound value
7 against the echoing engine return the same single row both times. -/
theorem all_twice_identical_witness :
    (StatementSync.All echoEngine baseStatement 0 [.number 7]).1
      = .ok [.object [("v", .number 7)]] ∧
    StatementSync.All echoEngine
        (StatementSync.All echoEngine baseStatement 0 [.number 7]).2 1
        [.number 7]
      = (.ok [.object [("v", .number 7)]],
         (StatementSync.All echoEngine baseStatement 0 [.number 7]).2) := by
  have h1 : (StatementSync.All echoEngine baseStatement 0 [.number 7]).1
      = .ok [.object [("v", .number 7)]] := by
    with_unfolding_all rfl
  exact ⟨h1, all_twice_identical echoEngine baseStatement 0 1 [.number 7] _ h1⟩

/-- C10 (confirmed): `iterate` resets the cursor but, unlike `run`/`get`/
`all`, keeps the existing parameter bindings: with zero arguments it executes
with whatever was previously bound and modifies no per-statement field except
the cursor position.  Concretely, after `all` bound the value 7, a zero-
argument `iterate` still yields the row for 7, while a zero-argument `all`
(which clears bindings on entry) yields nothing. -/
theorem iterate_keeps_prior_bindings :
    (∀ (eng : EngineModel) (s : StatementState) (tid : ℕ),
      s.finalized = false → s.dbOpen = true → s.hasStmt = true →
      StatementSync.Iterate eng s tid []
        = (.ok ((eng.queryRows s.bindings).map
            (StatementSync.CreateResult s.returnArrays s.useBigInts)),
           { s with position := 0 })) ∧
    (StatementSync.All echoEngine baseStatement 0 [.number 7]).2.bindings
      = [(1, .integer 7)] ∧
    (StatementSync.Iterate echoEngine
        (StatementSync.All echoEngine baseStatement 0 [.number 7]).2 1 []).1
      = .ok [.object [("v", .number 7)]] ∧
    (StatementSync.Iterate echoEngine
        (StatementSync.All echoEngine baseStatement 0 [.number 7]).2 1 []).2
      = { (StatementSync.All echoEngine baseStatement 0 [.number 7]).2 with
          position := 0 } ∧
    (StatementSync.All echoEngine
        (StatementSync.All echoEngine baseStatement 0 [.number 7]).2 1 []).1
      = .ok [] := by
  refine ⟨?_, ?_, ?_, ?_, ?_⟩
  · intro eng s tid hf ho hs
    simp [StatementSync.Iterate, StatementSync.BindParameters,
      StatementSync.namedArg?, StatementSync.bindPositional, hf, ho, hs]
  · with_unfolding_all rfl
  · with_unfolding_all rfl
  · with_unfolding_all rfl
  · with_unfolding_all rfl

/-- Witness for `iterate_keeps_prior_bindings` on `baseStatement` with the
empty engine. -/
theorem iterate_keeps_prior_bindings_witness :
    StatementSync.Iterate emptyEngine baseStatement 0 []
      = (.ok [], { baseStatement with position := 0 }) := by
  have h := iterate_keeps_prior_bindings.1 emptyEngine baseStatement 0 rfl
    rfl rfl
  simpa [emptyEngine] using h

/-- Witness for `finalized_statement_policy`: finalize `baseStatement`, then
observe the State error from `get` and the silent second `finalize`. -/
theorem finalized_statement_policy_witness :
    (StatementSync.FinalizeStatement baseStatement 0).2.finalized = true ∧
    StatementSync.Get emptyEngine finalizedStatement
        finalizedStatement.creationThread []
      = (.error (.invalidState "Statement has been finalized"),
         finalizedStatement) ∧
    StatementSync.FinalizeStatement finalizedStatement 0
      = (.ok (), finalizedStatement) := by
  refine ⟨((finalized_statement_policy emptyEngine baseStatement 0 []).1
    rfl).2, ?_, ?_⟩
  · exact ((finalized_statement_policy emptyEngine finalizedStatement 0
      []).2 rfl).2.2.1
  · exact ((finalized_statement_policy emptyEngine finalizedStatement 0
      []).2 rfl).1

end NodeSqlite
